import Mathlib

/-!
Shallow embedding of the service-control client library (src/service.rs and
src/service_manager.rs): domain enums with their raw-code decoding policy,
the status marshaling layer, the exit-code encoding, the enumeration buffer
iterator, the launch-command construction, and the service enumeration
protocol modelled over an explicit platform environment.

Machine integers (u32) are modelled as Nat; casts that can overflow are
written with explicit % 2^32.
-/

namespace WinSvc

/-! Wire constants, copied from the winapi definitions the source imports. -/

def SERVICE_KERNEL_DRIVER : Nat := 0x1

def SERVICE_FILE_SYSTEM_DRIVER : Nat := 0x2

def SERVICE_ADAPTER : Nat := 0x4

def SERVICE_RECOGNIZER_DRIVER : Nat := 0x8

def SERVICE_WIN32_OWN_PROCESS : Nat := 0x10

def SERVICE_WIN32_SHARE_PROCESS : Nat := 0x20

def SERVICE_USER_SERVICE : Nat := 0x40

def SERVICE_USERSERVICE_INSTANCE : Nat := 0x80

def SERVICE_INTERACTIVE_PROCESS : Nat := 0x100

def SERVICE_PKG_SERVICE : Nat := 0x200

def SERVICE_BOOT_START : Nat := 0

def SERVICE_SYSTEM_START : Nat := 1

def SERVICE_AUTO_START : Nat := 2

def SERVICE_DEMAND_START : Nat := 3

def SERVICE_DISABLED : Nat := 4

def SERVICE_ERROR_IGNORE : Nat := 0

def SERVICE_ERROR_NORMAL : Nat := 1

def SERVICE_ERROR_SEVERE : Nat := 2

def SERVICE_ERROR_CRITICAL : Nat := 3

def SERVICE_STOPPED : Nat := 1

def SERVICE_START_PENDING : Nat := 2

def SERVICE_STOP_PENDING : Nat := 3

def SERVICE_RUNNING : Nat := 4

def SERVICE_CONTINUE_PENDING : Nat := 5

def SERVICE_PAUSE_PENDING : Nat := 6

def SERVICE_PAUSED : Nat := 7

def ERROR_MORE_DATA : Nat := 234

def ERROR_SERVICE_SPECIFIC_ERROR : Nat := 1066

def NO_ERROR : Nat := 0

/-- Error kinds of the crate, modelled from the variants named at the use
sites in src (the crate root declaring ErrorKind is not under src/). Only the
variants the embedded code paths can produce are needed. -/
inductive ErrorKind where
  | InvalidServiceStartType (raw : Nat)
  | InvalidServiceControl (raw : Nat)
  | InvalidServiceState (raw : Nat)
  deriving DecidableEq, Repr

/-- ServiceType from service.rs, with discriminants from winnt. -/
inductive ServiceType where
  | FileSystemDriver
  | KernelDriver
  | Adapter
  | RecognizerDriver
  | OwnProcess
  | Win32ShareProcess
  | UserService
  | UserServiceInstance
  | InteractiveProcess
  | PkgService
  | InvalidServiceType
  deriving DecidableEq, Repr

def ServiceType.to_raw : ServiceType → Nat
  | .FileSystemDriver => SERVICE_FILE_SYSTEM_DRIVER
  | .KernelDriver => SERVICE_KERNEL_DRIVER
  | .Adapter => SERVICE_ADAPTER
  | .RecognizerDriver => SERVICE_RECOGNIZER_DRIVER
  | .OwnProcess => SERVICE_WIN32_OWN_PROCESS
  | .Win32ShareProcess => SERVICE_WIN32_SHARE_PROCESS
  | .UserService => SERVICE_USER_SERVICE
  | .UserServiceInstance => SERVICE_USERSERVICE_INSTANCE
  | .InteractiveProcess => SERVICE_INTERACTIVE_PROCESS
  | .PkgService => SERVICE_PKG_SERVICE
  | .InvalidServiceType => 288

/-- ServiceType::from_raw: the guard chain of the Rust match; every
unrecognized code falls through to the InvalidServiceType sentinel and the
function always returns Ok. -/
def ServiceType.from_raw (raw_value : Nat) : Except ErrorKind ServiceType :=
  if raw_value = ServiceType.FileSystemDriver.to_raw then .ok .FileSystemDriver
  else if raw_value = ServiceType.KernelDriver.to_raw then .ok .KernelDriver
  else if raw_value = ServiceType.Adapter.to_raw then .ok .Adapter
  else if raw_value = ServiceType.RecognizerDriver.to_raw then .ok .RecognizerDriver
  else if raw_value = ServiceType.OwnProcess.to_raw then .ok .OwnProcess
  else if raw_value = ServiceType.Win32ShareProcess.to_raw then .ok .Win32ShareProcess
  else if raw_value = ServiceType.UserService.to_raw then .ok .UserService
  else if raw_value = ServiceType.UserServiceInstance.to_raw then .ok .UserServiceInstance
  else if raw_value = ServiceType.InteractiveProcess.to_raw then .ok .InteractiveProcess
  else if raw_value = ServiceType.PkgService.to_raw then .ok .PkgService
  else .ok .InvalidServiceType

inductive ServiceStartType where
  | BootStart
  | AutoStart
  | OnDemand
  | Disabled
  | SystemStart
  deriving DecidableEq, Repr

def ServiceStartType.to_raw : ServiceStartType → Nat
  | .BootStart => SERVICE_BOOT_START
  | .AutoStart => SERVICE_AUTO_START
  | .OnDemand => SERVICE_DEMAND_START
  | .Disabled => SERVICE_DISABLED
  | .SystemStart => SERVICE_SYSTEM_START

/-- ServiceStartType::from_raw: strict policy, unrecognized codes are a hard
error carrying the raw value. -/
def ServiceStartType.from_raw (raw_value : Nat) : Except ErrorKind ServiceStartType :=
  if raw_value = ServiceStartType.AutoStart.to_raw then .ok .AutoStart
  else if raw_value = ServiceStartType.BootStart.to_raw then .ok .BootStart
  else if raw_value = ServiceStartType.OnDemand.to_raw then .ok .OnDemand
  else if raw_value = ServiceStartType.SystemStart.to_raw then .ok .SystemStart
  else if raw_value = ServiceStartType.Disabled.to_raw then .ok .Disabled
  else .error (ErrorKind.InvalidServiceStartType raw_value)

inductive ServiceErrorControl where
  | Critical
  | Ignore
  | Normal
  | Severe
  deriving DecidableEq, Repr

def ServiceErrorControl.to_raw : ServiceErrorControl → Nat
  | .Critical => SERVICE_ERROR_CRITICAL
  | .Ignore => SERVICE_ERROR_IGNORE
  | .Normal => SERVICE_ERROR_NORMAL
  | .Severe => SERVICE_ERROR_SEVERE

/-- ServiceErrorControl::from_raw: strict policy; note the source's error arm
reuses ErrorKind::InvalidServiceStartType (service.rs line 135). -/
def ServiceErrorControl.from_raw (raw_value : Nat) : Except ErrorKind ServiceErrorControl :=
  if raw_value = ServiceErrorControl.Critical.to_raw then .ok .Critical
  else if raw_value = ServiceErrorControl.Ignore.to_raw then .ok .Ignore
  else if raw_value = ServiceErrorControl.Normal.to_raw then .ok .Normal
  else if raw_value = ServiceErrorControl.Severe.to_raw then .ok .Severe
  else .error (ErrorKind.InvalidServiceStartType raw_value)

inductive ServiceState where
  | Stopped
  | StartPending
  | StopPending
  | Running
  | ContinuePending
  | PausePending
  | Paused
  deriving DecidableEq, Repr

def ServiceState.to_raw : ServiceState → Nat
  | .Stopped => SERVICE_STOPPED
  | .StartPending => SERVICE_START_PENDING
  | .StopPending => SERVICE_STOP_PENDING
  | .Running => SERVICE_RUNNING
  | .ContinuePending => SERVICE_CONTINUE_PENDING
  | .PausePending => SERVICE_PAUSE_PENDING
  | .Paused => SERVICE_PAUSED

/-- ServiceState::from_raw: strict policy, unrecognized codes are a hard
error carrying the raw value. -/
def ServiceState.from_raw (raw_state : Nat) : Except ErrorKind ServiceState :=
  if raw_state = ServiceState.Stopped.to_raw then .ok .Stopped
  else if raw_state = ServiceState.StartPending.to_raw then .ok .StartPending
  else if raw_state = ServiceState.StopPending.to_raw then .ok .StopPending
  else if raw_state = ServiceState.Running.to_raw then .ok .Running
  else if raw_state = ServiceState.ContinuePending.to_raw then .ok .ContinuePending
  else if raw_state = ServiceState.PausePending.to_raw then .ok .PausePending
  else if raw_state = ServiceState.Paused.to_raw then .ok .Paused
  else .error (ErrorKind.InvalidServiceState raw_state)

/-- The raw codes ServiceType::from_raw recognizes with a dedicated arm. -/
def knownServiceTypeCodes : List Nat :=
  [SERVICE_FILE_SYSTEM_DRIVER, SERVICE_KERNEL_DRIVER, SERVICE_ADAPTER,
   SERVICE_RECOGNIZER_DRIVER, SERVICE_WIN32_OWN_PROCESS, SERVICE_WIN32_SHARE_PROCESS,
   SERVICE_USER_SERVICE, SERVICE_USERSERVICE_INSTANCE, SERVICE_INTERACTIVE_PROCESS,
   SERVICE_PKG_SERVICE]

/-- The raw codes ServiceStartType::from_raw recognizes. -/
def knownStartTypeCodes : List Nat :=
  [SERVICE_AUTO_START, SERVICE_BOOT_START, SERVICE_DEMAND_START,
   SERVICE_SYSTEM_START, SERVICE_DISABLED]

/-- The raw codes ServiceErrorControl::from_raw recognizes. -/
def knownErrorControlCodes : List Nat :=
  [SERVICE_ERROR_CRITICAL, SERVICE_ERROR_IGNORE, SERVICE_ERROR_NORMAL,
   SERVICE_ERROR_SEVERE]

/-- The raw codes ServiceState::from_raw recognizes. -/
def knownStateCodes : List Nat :=
  [SERVICE_STOPPED, SERVICE_START_PENDING, SERVICE_STOP_PENDING, SERVICE_RUNNING,
   SERVICE_CONTINUE_PENDING, SERVICE_PAUSE_PENDING, SERVICE_PAUSED]

/-! Status marshaling layer. -/

/-- winsvc::SERVICE_STATUS, every field a u32 modelled as Nat. -/
structure SERVICE_STATUS where
  dwServiceType : Nat
  dwCurrentState : Nat
  dwControlsAccepted : Nat
  dwWin32ExitCode : Nat
  dwServiceSpecificExitCode : Nat
  dwCheckPoint : Nat
  dwWaitHint : Nat
  deriving DecidableEq, Repr

/-- winsvc::SERVICE_STATUS_PROCESS: SERVICE_STATUS plus process info. -/
structure SERVICE_STATUS_PROCESS where
  dwServiceType : Nat
  dwCurrentState : Nat
  dwControlsAccepted : Nat
  dwWin32ExitCode : Nat
  dwServiceSpecificExitCode : Nat
  dwCheckPoint : Nat
  dwWaitHint : Nat
  dwProcessId : Nat
  dwServiceFlags : Nat
  deriving DecidableEq, Repr

/-- std::time::Duration: whole seconds plus a nanosecond remainder. -/
structure Duration where
  secs : Nat
  nanos : Nat
  deriving DecidableEq, Repr

def Duration.as_secs (d : Duration) : Nat := d.secs

def Duration.from_millis (v : Nat) : Duration :=
  { secs := v / 1000, nanos := (v % 1000) * 1000000 }

/-- ServiceControlAccept bitflags: the mask of the six declared bits. -/
def SERVICE_ACCEPT_MASK : Nat := 0x11F

/-- Bit set of accepted control events (bitflags struct). -/
structure ServiceControlAccept where
  bits : Nat
  deriving DecidableEq, Repr

/-- from_bits_truncate: keep known bits, drop unknown ones. -/
def ServiceControlAccept.from_bits_truncate (raw : Nat) : ServiceControlAccept :=
  { bits := raw &&& SERVICE_ACCEPT_MASK }

/-- ServiceExitCode: either a win32 code or a service-specific code. -/
inductive ServiceExitCode where
  | Win32 (code : Nat)
  | ServiceSpecific (code : Nat)
  deriving DecidableEq, Repr

/-- ServiceExitCode::copy_to: write the exit-code pair into a raw status. -/
def ServiceExitCode.copy_to (c : ServiceExitCode) (raw_service_status : SERVICE_STATUS) :
    SERVICE_STATUS :=
  match c with
  | .Win32 win32_error_code =>
      { raw_service_status with
        dwWin32ExitCode := win32_error_code, dwServiceSpecificExitCode := 0 }
  | .ServiceSpecific service_error_code =>
      { raw_service_status with
        dwWin32ExitCode := ERROR_SERVICE_SPECIFIC_ERROR,
        dwServiceSpecificExitCode := service_error_code }

/-- impl From of SERVICE_STATUS for ServiceExitCode. -/
def ServiceExitCode.from_status (service_status : SERVICE_STATUS) : ServiceExitCode :=
  if service_status.dwWin32ExitCode = ERROR_SERVICE_SPECIFIC_ERROR then
    .ServiceSpecific service_status.dwServiceSpecificExitCode
  else
    .Win32 service_status.dwWin32ExitCode

/-- impl From of SERVICE_STATUS_PROCESS for ServiceExitCode. -/
def ServiceExitCode.from_status_process (service_status : SERVICE_STATUS_PROCESS) :
    ServiceExitCode :=
  if service_status.dwWin32ExitCode = ERROR_SERVICE_SPECIFIC_ERROR then
    .ServiceSpecific service_status.dwServiceSpecificExitCode
  else
    .Win32 service_status.dwWin32ExitCode

/-- The typed service status snapshot. -/
structure ServiceStatus where
  service_type : ServiceType
  current_state : ServiceState
  controls_accepted : ServiceControlAccept
  exit_code : ServiceExitCode
  checkpoint : Nat
  wait_hint : Duration
  deriving DecidableEq, Repr

/-- ServiceStatus::to_raw. The wait hint is encoded as whole seconds times
1000 with the `as u32` cast made explicit as % 2^32 (the source comment
acknowledges the precision loss). -/
def ServiceStatus.to_raw (s : ServiceStatus) : SERVICE_STATUS :=
  let raw0 : SERVICE_STATUS :=
    { dwServiceType := 0, dwCurrentState := 0, dwControlsAccepted := 0,
      dwWin32ExitCode := 0, dwServiceSpecificExitCode := 0, dwCheckPoint := 0,
      dwWaitHint := 0 }
  let raw1 :=
    { raw0 with
      dwServiceType := s.service_type.to_raw,
      dwCurrentState := s.current_state.to_raw,
      dwControlsAccepted := s.controls_accepted.bits }
  let raw2 := s.exit_code.copy_to raw1
  { raw2 with
    dwCheckPoint := s.checkpoint,
    dwWaitHint := (s.wait_hint.as_secs * 1000) % 4294967296 }

/-- ServiceStatus::from_raw; the ? operator is written as its match
desugaring. -/
def ServiceStatus.from_raw (raw_status : SERVICE_STATUS) : Except ErrorKind ServiceStatus :=
  match ServiceType.from_raw raw_status.dwServiceType with
  | .error e => .error e
  | .ok t =>
    match ServiceState.from_raw raw_status.dwCurrentState with
    | .error e => .error e
    | .ok st =>
      .ok { service_type := t, current_state := st,
            controls_accepted :=
              ServiceControlAccept.from_bits_truncate raw_status.dwControlsAccepted,
            exit_code := ServiceExitCode.from_status raw_status,
            checkpoint := raw_status.dwCheckPoint,
            wait_hint := Duration.from_millis raw_status.dwWaitHint }

/-- ServiceStatus::from_raw_ex on the extended process-status record. -/
def ServiceStatus.from_raw_ex (raw_status : SERVICE_STATUS_PROCESS) :
    Except ErrorKind ServiceStatus :=
  match ServiceType.from_raw raw_status.dwServiceType with
  | .error e => .error e
  | .ok t =>
    match ServiceState.from_raw raw_status.dwCurrentState with
    | .error e => .error e
    | .ok st =>
      .ok { service_type := t, current_state := st,
            controls_accepted :=
              ServiceControlAccept.from_bits_truncate raw_status.dwControlsAccepted,
            exit_code := ServiceExitCode.from_status_process raw_status,
            checkpoint := raw_status.dwCheckPoint,
            wait_hint := Duration.from_millis raw_status.dwWaitHint }

/-- ServiceStatus plus process-level fields, produced by enumeration. -/
structure ServiceStatusExt where
  status : ServiceStatus
  process_id : Nat
  service_flags : Nat
  deriving DecidableEq, Repr

/-- ServiceStatusExt::from_raw. -/
def ServiceStatusExt.from_raw (raw_status : SERVICE_STATUS_PROCESS) :
    Except ErrorKind ServiceStatusExt :=
  match ServiceStatus.from_raw_ex raw_status with
  | .error e => .error e
  | .ok s =>
    .ok { service_flags := raw_status.dwServiceFlags,
          process_id := raw_status.dwProcessId,
          status := s }

/-! Enumeration buffer iterator (EnumListServiceResult). -/

/-- winsvc::ENUM_SERVICE_STATUS_PROCESSW: the fixed-size record the
enumeration buffer is reinterpreted as. Wide string pointers are modelled as
the strings they point at. -/
structure ENUM_SERVICE_STATUS_PROCESSW where
  lpServiceName : String
  lpDisplayName : String
  ServiceStatusProcess : SERVICE_STATUS_PROCESS
  deriving DecidableEq, Repr

/-- EnumListServiceResult from service.rs: a cursor over a raw buffer. The
entry_point pointer is modelled as a read function from a byte offset to the
record stored there. -/
structure EnumListServiceResult where
  entry_point : Nat → ENUM_SERVICE_STATUS_PROCESSW
  index : Nat
  size : Nat

/-- EnumListServiceResult::from_raw. -/
def EnumListServiceResult.from_raw (entry_point : Nat → ENUM_SERVICE_STATUS_PROCESSW)
    (size : Nat) : EnumListServiceResult :=
  { entry_point := entry_point, index := 0, size := size }

/-- Iterator::next for EnumListServiceResult: while index < size, read the
record at byte offset index * record_size and advance; afterwards yield
nothing. The result pairs the byte offset that was read with the record. -/
def EnumListServiceResult.next (recordSize : Nat) (it : EnumListServiceResult) :
    Option (Nat × ENUM_SERVICE_STATUS_PROCESSW) × EnumListServiceResult :=
  if it.index < it.size then
    (some (it.index * recordSize, it.entry_point (it.index * recordSize)),
     { it with index := it.index + 1 })
  else
    (none, it)

/-- Drive the iterator up to fuel steps, collecting the (offset, record)
pairs it yields and returning the final cursor state. -/
def EnumListServiceResult.run (recordSize : Nat) :
    Nat → EnumListServiceResult →
    List (Nat × ENUM_SERVICE_STATUS_PROCESSW) × EnumListServiceResult
  | 0, it => ([], it)
  | fuel + 1, it =>
    match EnumListServiceResult.next recordSize it with
    | (none, it') => ([], it')
    | (some r, it') =>
      let rest := EnumListServiceResult.run recordSize fuel it'
      (r :: rest.1, rest.2)

/-! Per-service configuration query and ServiceDetail. -/

/-- winsvc::QUERY_SERVICE_CONFIGW, the secondary per-service query result. -/
structure QUERY_SERVICE_CONFIGW where
  dwServiceType : Nat
  dwStartType : Nat
  dwErrorControl : Nat
  lpBinaryPathName : String
  lpLoadOrderGroup : String
  dwTagId : Nat
  lpDependencies : String
  lpServiceStartName : String
  deriving DecidableEq, Repr

/-- The enumeration output record from service.rs. -/
structure ServiceDetail where
  status : ServiceStatusExt
  name : String
  display_name : String
  binary_path : Option String
  start_type : Option ServiceStartType
  error_control : Option ServiceErrorControl
  load_order_group : Option String
  tag_id : Option Nat
  dependencies : Option String
  start_name : Option String
  deriving DecidableEq, Repr

/-- One enumerated service as the platform presents it to list_services: the
record from the filled enumeration buffer, the byte count the per-service
configuration probe reports (0 models the probe failing), the configuration
record read when the probe succeeds, and the OS error text current when the
probe fails. -/
structure ServiceEntry where
  status : ENUM_SERVICE_STATUS_PROCESSW
  configProbeBytes : Nat
  config : QUERY_SERVICE_CONFIGW
  lastErrorMsg : String
  deriving DecidableEq, Repr

/-- Outcomes of the platform calls list_services makes: the last OS error
after the initial zero-buffer sizing probe, the byte count it reports, and
the records the filled second call produces. -/
structure EnumEnv where
  probeLastError : Nat
  probeBytesNeeded : Nat
  services : List ServiceEntry
  deriving DecidableEq, Repr

/-- The per-service body of the list_services loop: when the configuration
probe reports a positive byte count, the configuration is read and every
optional field is populated (tag_id from dwErrorControl, as in the source);
otherwise a degraded record is built with a diagnostic binary_path and every
other optional field empty. Field effects run in the source's written order,
and a decode failure aborts with the error, as the ? operator does. -/
def mkDetail (e : ServiceEntry) : Except ErrorKind ServiceDetail :=
  if e.configProbeBytes > 0 then
    match ServiceStatusExt.from_raw e.status.ServiceStatusProcess with
    | .error err => .error err
    | .ok st =>
      match ServiceStartType.from_raw e.config.dwStartType with
      | .error err => .error err
      | .ok startT =>
        match ServiceErrorControl.from_raw e.config.dwErrorControl with
        | .error err => .error err
        | .ok errC =>
          .ok { status := st,
                name := e.status.lpServiceName,
                display_name := e.status.lpDisplayName,
                binary_path := some e.config.lpBinaryPathName,
                start_type := some startT,
                error_control := some errC,
                tag_id := some e.config.dwErrorControl,
                start_name := some e.config.lpServiceStartName,
                load_order_group := some e.config.lpLoadOrderGroup,
                dependencies := some e.config.lpDependencies }
  else
    match ServiceStatusExt.from_raw e.status.ServiceStatusProcess with
    | .error err => .error err
    | .ok st =>
      .ok { status := st,
            name := e.status.lpServiceName,
            display_name := e.status.lpDisplayName,
            binary_path := some ("Error when retrieving info for service " ++ e.lastErrorMsg),
            start_type := none,
            error_control := none,
            tag_id := none,
            start_name := none,
            load_order_group := none,
            dependencies := none }

/-- The list_services loop over the enumerated records: push each detail in
order; a ? failure inside an iteration aborts the whole enumeration. -/
def buildDetails : List ServiceEntry → Except ErrorKind (List ServiceDetail)
  | [] => .ok []
  | e :: rest =>
    match mkDetail e with
    | .error err => .error err
    | .ok d =>
      match buildDetails rest with
      | .error err => .error err
      | .ok ds => .ok (d :: ds)

/-- ServiceManager::list_services: the loop body runs only when the sizing
probe's last error is ERROR_MORE_DATA; for every other probe outcome the
function falls through to Ok with the (empty) accumulated list. -/
def list_services (env : EnumEnv) : Except ErrorKind (List ServiceDetail) :=
  if env.probeLastError = ERROR_MORE_DATA then
    buildDetails env.services
  else
    .ok []

/-! Launch command construction (create_service). -/

/-- True when the string contains an interior NUL, which makes the wide
C-string conversion fail. -/
def hasNul (s : String) : Bool := s.toList.contains (Char.ofNat 0)

/-- escape_wide from service_manager.rs, over an abstract shell-escape
capability esc: escape the token, then convert to a wide C string (fails on
interior NUL). -/
def escape_wide (esc : String → String) (s : String) : Option String :=
  if hasNul (esc s) then none else some (esc s)

/-- The launch-command construction inside create_service: the executable
path is escaped unless the service type is KernelDriver (then used verbatim);
each launch argument is escaped; tokens are joined by pushing a single space
before each argument. -/
def launch_command (esc : String → String) (service_type : ServiceType)
    (executable_path : String) (launch_arguments : List String) : Option String :=
  match
    (match service_type with
     | .KernelDriver => some executable_path
     | _ => escape_wide esc executable_path) with
  | none => none
  | some ep =>
    match launch_arguments.mapM (escape_wide esc) with
    | none => none
    | some args => some (args.foldl (fun buf a => buf ++ " " ++ a) ep)

/-- An all-zero raw status record, used as the zeroed starting value in
concrete evaluations. -/
def rawZeroStatus : SERVICE_STATUS :=
  { dwServiceType := 0, dwCurrentState := 0, dwControlsAccepted := 0,
    dwWin32ExitCode := 0, dwServiceSpecificExitCode := 0, dwCheckPoint := 0,
    dwWaitHint := 0 }

/-- True when the fallible computation succeeded. -/
def isOkB {α : Type} : Except ErrorKind α → Bool
  | .ok _ => true
  | .error _ => false

/-- A service entry whose configuration probe succeeds and whose wire codes
all decode: the loop's fully-populated branch applies without aborting. -/
def goodEntry (e : ServiceEntry) : Bool :=
  decide (e.configProbeBytes > 0) &&
  isOkB (ServiceStatusExt.from_raw e.status.ServiceStatusProcess) &&
  isOkB (ServiceStartType.from_raw e.config.dwStartType) &&
  isOkB (ServiceErrorControl.from_raw e.config.dwErrorControl)

/-- A service entry whose configuration probe fails (reports zero bytes)
while its status record still decodes: the loop's degraded branch applies. -/
def badEntry (e : ServiceEntry) : Bool :=
  decide (e.configProbeBytes = 0) &&
  isOkB (ServiceStatusExt.from_raw e.status.ServiceStatusProcess)

/-- Every optional configuration field of the detail record is present. -/
def fullyPopulated (d : ServiceDetail) : Bool :=
  d.binary_path.isSome && d.start_type.isSome && d.error_control.isSome &&
  d.tag_id.isSome && d.start_name.isSome && d.load_order_group.isSome &&
  d.dependencies.isSome

/-- Degraded detail record: binary_path present (it carries the diagnostic),
every other optional configuration field absent. -/
def degraded (d : ServiceDetail) : Bool :=
  d.binary_path.isSome && d.start_type.isNone && d.error_control.isNone &&
  d.tag_id.isNone && d.start_name.isNone && d.load_order_group.isNone &&
  d.dependencies.isNone

/-- Space-join of a token list, written from the spec side: tokens appear in
order, separated by single spaces. -/
def joinTokens : List String → String
  | [] => ""
  | [a] => a
  | a :: b :: rest => a ++ " " ++ joinTokens (b :: rest)

/-! Concrete records used by witnesses and counterexamples. -/

/-- A decodable raw process-status record (own-process, running). -/
def rawStatusProcOk : SERVICE_STATUS_PROCESS :=
  { dwServiceType := 16, dwCurrentState := 4, dwControlsAccepted := 1,
    dwWin32ExitCode := 0, dwServiceSpecificExitCode := 0, dwCheckPoint := 0,
    dwWaitHint := 0, dwProcessId := 42, dwServiceFlags := 0 }

/-- A configuration record whose wire codes all decode. -/
def configOk : QUERY_SERVICE_CONFIGW :=
  { dwServiceType := 16, dwStartType := 2, dwErrorControl := 1,
    lpBinaryPathName := "C:\\svc.exe", lpLoadOrderGroup := "", dwTagId := 0,
    lpDependencies := "", lpServiceStartName := "LocalSystem" }

/-- An enumerated service whose secondary query succeeds. -/
def goodEntryA : ServiceEntry :=
  { status := { lpServiceName := "svcA", lpDisplayName := "Service A",
                ServiceStatusProcess := rawStatusProcOk },
    configProbeBytes := 100, config := configOk, lastErrorMsg := "" }

/-- A second enumerated service whose secondary query succeeds. -/
def goodEntryB : ServiceEntry :=
  { status := { lpServiceName := "svcC", lpDisplayName := "Service C",
                ServiceStatusProcess := rawStatusProcOk },
    configProbeBytes := 100, config := configOk, lastErrorMsg := "" }

/-- An enumerated service whose secondary query fails (probe reports zero
bytes). -/
def badEntryA : ServiceEntry :=
  { status := { lpServiceName := "svcB", lpDisplayName := "Service B",
                ServiceStatusProcess := rawStatusProcOk },
    configProbeBytes := 0, config := configOk, lastErrorMsg := "os error 5" }

/-- An environment whose sizing probe reports a real platform error
(ERROR_ACCESS_DENIED = 5), even though services exist. -/
def envProbeErr : EnumEnv :=
  { probeLastError := 5, probeBytesNeeded := 0, services := [goodEntryA] }

/-- An environment whose probe reports the more-data signal with no
records. -/
def envEmptyMoreData : EnumEnv :=
  { probeLastError := ERROR_MORE_DATA, probeBytesNeeded := 0, services := [] }

/-- An environment with a single fully-working service. -/
def envOneGood : EnumEnv :=
  { probeLastError := ERROR_MORE_DATA, probeBytesNeeded := 100,
    services := [goodEntryA] }

/-- A typed status whose wait hint is 1500 ms: exactly on a millisecond
boundary but not on a second boundary. -/
def exStatus1500 : ServiceStatus :=
  { service_type := .OwnProcess, current_state := .Running,
    controls_accepted := { bits := 1 }, exit_code := .Win32 0,
    checkpoint := 7, wait_hint := Duration.from_millis 1500 }

/-- A typed status whose wait hint is exactly 2 seconds. -/
def exStatus2s : ServiceStatus :=
  { service_type := .OwnProcess, current_state := .Running,
    controls_accepted := { bits := 1 }, exit_code := .Win32 0,
    checkpoint := 3, wait_hint := Duration.from_millis 2000 }

/-- A constant enumeration buffer: every offset holds the same record. -/
def enumBufConst : Nat → ENUM_SERVICE_STATUS_PROCESSW := fun _ =>
  { lpServiceName := "svcA", lpDisplayName := "Service A",
    ServiceStatusProcess := rawStatusProcOk }

/-- A concrete shell-escape capability used in witnesses: wraps the token in
q markers, so escaping is observable. -/
def escQuote : String → String := fun s => "q" ++ s ++ "q"

/-- The decoded extended status of rawStatusProcOk. -/
def statusExtA : ServiceStatusExt :=
  { status := { service_type := .OwnProcess, current_state := .Running,
                controls_accepted := { bits := 1 }, exit_code := .Win32 0,
                checkpoint := 0, wait_hint := { secs := 0, nanos := 0 } },
    process_id := 42, service_flags := 0 }

/-- The detail record list_services produces for goodEntryA. -/
def detailA : ServiceDetail :=
  { status := statusExtA, name := "svcA", display_name := "Service A",
    binary_path := some "C:\\svc.exe", start_type := some .AutoStart,
    error_control := some .Normal, load_order_group := some "",
    tag_id := some 1, dependencies := some "", start_name := some "LocalSystem" }

/-! Helper lemmas shared by several developments. -/

/-- Decoding the raw code of any ServiceType variant gives back that variant
(the sentinel's own code 288 also falls through to the sentinel). -/
theorem serviceType_decode_own_code (t : ServiceType) :
    ServiceType.from_raw t.to_raw = .ok t := by
  cases t <;> rfl

/-- Decoding the raw code of any ServiceState variant gives back that
variant. -/
theorem serviceState_decode_own_code (st : ServiceState) :
    ServiceState.from_raw st.to_raw = .ok st := by
  cases st <;> rfl

/-- When ServiceErrorControl::from_raw succeeds, re-encoding the decoded
variant yields the raw code that was decoded. -/
theorem ServiceErrorControl.to_raw_of_from_raw {c : Nat} {ec : ServiceErrorControl}
    (h : ServiceErrorControl.from_raw c = .ok ec) : ec.to_raw = c := by
  unfold ServiceErrorControl.from_raw at h
  split at h
  next hc => cases h; exact hc.symm
  next =>
    split at h
    next hc => cases h; exact hc.symm
    next =>
      split at h
      next hc => cases h; exact hc.symm
      next =>
        split at h
        next hc => cases h; exact hc.symm
        next => cases h

/-- C3: for every u32 raw code outside the respective known set,
ServiceType::from_raw returns Ok with the unrecognized-type sentinel (never
an error), while ServiceStartType::from_raw, ServiceErrorControl::from_raw
and ServiceState::from_raw each return an error for such a code. -/
theorem from_raw_unknown_code_policy (raw : Nat) (_h32 : raw < 4294967296) :
    (raw ∉ knownServiceTypeCodes →
      ServiceType.from_raw raw = .ok ServiceType.InvalidServiceType) ∧
    (raw ∉ knownStartTypeCodes →
      ServiceStartType.from_raw raw = .error (ErrorKind.InvalidServiceStartType raw)) ∧
    (raw ∉ knownErrorControlCodes →
      ServiceErrorControl.from_raw raw = .error (ErrorKind.InvalidServiceStartType raw)) ∧
    (raw ∉ knownStateCodes →
      ServiceState.from_raw raw = .error (ErrorKind.InvalidServiceState raw)) := by
  refine ⟨fun h => ?_, fun h => ?_, fun h => ?_, fun h => ?_⟩
  · simp only [knownServiceTypeCodes, SERVICE_FILE_SYSTEM_DRIVER, SERVICE_KERNEL_DRIVER,
      SERVICE_ADAPTER, SERVICE_RECOGNIZER_DRIVER, SERVICE_WIN32_OWN_PROCESS,
      SERVICE_WIN32_SHARE_PROCESS, SERVICE_USER_SERVICE, SERVICE_USERSERVICE_INSTANCE,
      SERVICE_INTERACTIVE_PROCESS, SERVICE_PKG_SERVICE,
      List.mem_cons, List.not_mem_nil, or_false, not_or] at h
    simp [ServiceType.from_raw, ServiceType.to_raw, SERVICE_FILE_SYSTEM_DRIVER,
      SERVICE_KERNEL_DRIVER, SERVICE_ADAPTER, SERVICE_RECOGNIZER_DRIVER,
      SERVICE_WIN32_OWN_PROCESS, SERVICE_WIN32_SHARE_PROCESS, SERVICE_USER_SERVICE,
      SERVICE_USERSERVICE_INSTANCE, SERVICE_INTERACTIVE_PROCESS, SERVICE_PKG_SERVICE,
      h.1, h.2.1, h.2.2.1, h.2.2.2.1, h.2.2.2.2.1, h.2.2.2.2.2.1, h.2.2.2.2.2.2.1,
      h.2.2.2.2.2.2.2.1, h.2.2.2.2.2.2.2.2.1, h.2.2.2.2.2.2.2.2.2]
  · simp only [knownStartTypeCodes, SERVICE_AUTO_START, SERVICE_BOOT_START,
      SERVICE_DEMAND_START, SERVICE_SYSTEM_START, SERVICE_DISABLED,
      List.mem_cons, List.not_mem_nil, or_false, not_or] at h
    simp [ServiceStartType.from_raw, ServiceStartType.to_raw, SERVICE_AUTO_START,
      SERVICE_BOOT_START, SERVICE_DEMAND_START, SERVICE_SYSTEM_START, SERVICE_DISABLED,
      h.1, h.2.1, h.2.2.1, h.2.2.2.1, h.2.2.2.2]
  · simp only [knownErrorControlCodes, SERVICE_ERROR_CRITICAL, SERVICE_ERROR_IGNORE,
      SERVICE_ERROR_NORMAL, SERVICE_ERROR_SEVERE,
      List.mem_cons, List.not_mem_nil, or_false, not_or] at h
    simp [ServiceErrorControl.from_raw, ServiceErrorControl.to_raw, SERVICE_ERROR_CRITICAL,
      SERVICE_ERROR_IGNORE, SERVICE_ERROR_NORMAL, SERVICE_ERROR_SEVERE,
      h.1, h.2.1, h.2.2.1, h.2.2.2]
  · simp only [knownStateCodes, SERVICE_STOPPED, SERVICE_START_PENDING, SERVICE_STOP_PENDING,
      SERVICE_RUNNING, SERVICE_CONTINUE_PENDING, SERVICE_PAUSE_PENDING, SERVICE_PAUSED,
      List.mem_cons, List.not_mem_nil, or_false, not_or] at h
    simp [ServiceState.from_raw, ServiceState.to_raw, SERVICE_STOPPED, SERVICE_START_PENDING,
      SERVICE_STOP_PENDING, SERVICE_RUNNING, SERVICE_CONTINUE_PENDING, SERVICE_PAUSE_PENDING,
      SERVICE_PAUSED, h.1, h.2.1, h.2.2.1, h.2.2.2.1, h.2.2.2.2.1, h.2.2.2.2.2.1,
      h.2.2.2.2.2.2]

/-- Witness for C3 at the concrete unknown code 999. -/
theorem from_raw_unknown_code_policy_witness :
    ServiceType.from_raw 999 = .ok ServiceType.InvalidServiceType ∧
    ServiceStartType.from_raw 999 = .error (ErrorKind.InvalidServiceStartType 999) ∧
    ServiceErrorControl.from_raw 999 = .error (ErrorKind.InvalidServiceStartType 999) ∧
    ServiceState.from_raw 999 = .error (ErrorKind.InvalidServiceState 999) := by
  obtain ⟨h1, h2, h3, h4⟩ := from_raw_unknown_code_policy 999 (by decide)
  exact ⟨h1 (by decide), h2 (by decide), h3 (by decide), h4 (by decide)⟩

/-- C8: for every raw code in the known ServiceType set, decoding succeeds
and re-encoding the decoded variant gives back the code. -/
theorem service_type_known_roundtrip (code : Nat) (h : code ∈ knownServiceTypeCodes) :
    ∃ t, ServiceType.from_raw code = .ok t ∧ ServiceType.to_raw t = code := by
  simp only [knownServiceTypeCodes, SERVICE_FILE_SYSTEM_DRIVER, SERVICE_KERNEL_DRIVER,
    SERVICE_ADAPTER, SERVICE_RECOGNIZER_DRIVER, SERVICE_WIN32_OWN_PROCESS,
    SERVICE_WIN32_SHARE_PROCESS, SERVICE_USER_SERVICE, SERVICE_USERSERVICE_INSTANCE,
    SERVICE_INTERACTIVE_PROCESS, SERVICE_PKG_SERVICE,
    List.mem_cons, List.not_mem_nil, or_false] at h
  rcases h with rfl | rfl | rfl | rfl | rfl | rfl | rfl | rfl | rfl | rfl
  · exact ⟨.FileSystemDriver, rfl, rfl⟩
  · exact ⟨.KernelDriver, rfl, rfl⟩
  · exact ⟨.Adapter, rfl, rfl⟩
  · exact ⟨.RecognizerDriver, rfl, rfl⟩
  · exact ⟨.OwnProcess, rfl, rfl⟩
  · exact ⟨.Win32ShareProcess, rfl, rfl⟩
  · exact ⟨.UserService, rfl, rfl⟩
  · exact ⟨.UserServiceInstance, rfl, rfl⟩
  · exact ⟨.InteractiveProcess, rfl, rfl⟩
  · exact ⟨.PkgService, rfl, rfl⟩

/-- Witness for C8 at the concrete known code 0x20. -/
theorem service_type_known_roundtrip_witness :
    ∃ t, ServiceType.from_raw 32 = .ok t ∧ ServiceType.to_raw t = 32 :=
  service_type_known_roundtrip 32 (by decide)

/-- C9: evaluation at the failing input: ServiceErrorControl::from_raw on the
unrecognized code 7 returns the error kind that names the start-type enum,
not the error-control enum, carrying the raw value. -/
theorem error_control_wrong_error_kind :
    ServiceErrorControl.from_raw 7 = .error (ErrorKind.InvalidServiceStartType 7) := by
  rfl

/-- C5: encoding ServiceSpecific(n) into a raw status and decoding yields
ServiceSpecific(n); encoding Win32(k) for k other than the service-specific
sentinel and decoding yields Win32(k). -/
theorem exit_code_roundtrip (n k : Nat) (raw : SERVICE_STATUS)
    (hk : k ≠ ERROR_SERVICE_SPECIFIC_ERROR) :
    ServiceExitCode.from_status ((ServiceExitCode.ServiceSpecific n).copy_to raw) =
      .ServiceSpecific n ∧
    ServiceExitCode.from_status ((ServiceExitCode.Win32 k).copy_to raw) = .Win32 k := by
  constructor
  · simp [ServiceExitCode.copy_to, ServiceExitCode.from_status]
  · simp [ServiceExitCode.copy_to, ServiceExitCode.from_status, hk]

/-- Witness for C5 at n = 5, k = 0 on the zeroed raw status. -/
theorem exit_code_roundtrip_witness :
    ServiceExitCode.from_status ((ServiceExitCode.ServiceSpecific 5).copy_to rawZeroStatus) =
      .ServiceSpecific 5 ∧
    ServiceExitCode.from_status ((ServiceExitCode.Win32 0).copy_to rawZeroStatus) = .Win32 0 :=
  exit_code_roundtrip 5 0 rawZeroStatus (by decide)

/-- The non-exit-code fields ServiceStatus::to_raw writes, independent of
which exit-code variant copy_to stores. -/
theorem ServiceStatus.to_raw_proj (s : ServiceStatus) :
    (ServiceStatus.to_raw s).dwServiceType = s.service_type.to_raw ∧
    (ServiceStatus.to_raw s).dwCurrentState = s.current_state.to_raw ∧
    (ServiceStatus.to_raw s).dwControlsAccepted = s.controls_accepted.bits ∧
    (ServiceStatus.to_raw s).dwCheckPoint = s.checkpoint ∧
    (ServiceStatus.to_raw s).dwWaitHint = (s.wait_hint.secs * 1000) % 4294967296 := by
  rcases s with ⟨t, st, ca, ec, cp, wh⟩
  cases ec <;>
    simp [ServiceStatus.to_raw, ServiceExitCode.copy_to, Duration.as_secs]

/-- C4 counterexample: the status with wait_hint = 1500 ms lies exactly on a
millisecond boundary, yet decoding its encoding yields wait_hint = 1000 ms,
because the encoder keeps only whole seconds. -/
theorem wait_hint_millis_boundary_not_preserved :
    exStatus1500.wait_hint.nanos % 1000000 = 0 ∧
    ServiceStatus.from_raw (ServiceStatus.to_raw exStatus1500) =
      .ok { exStatus1500 with wait_hint := Duration.from_millis 1000 } ∧
    Duration.from_millis 1000 ≠ exStatus1500.wait_hint := by
  refine ⟨by decide, rfl, by decide⟩

/-- C4 amended: checkpoint always round-trips through encode/decode
unchanged; wait_hint round-trips only to whole-second granularity — for every
status whose wait hint is an exact number of seconds small enough that
seconds * 1000 fits in u32, decoding the encoding restores it. -/
theorem checkpoint_roundtrip_wait_hint_seconds (s : ServiceStatus) :
    ∃ s', ServiceStatus.from_raw (ServiceStatus.to_raw s) = .ok s' ∧
      s'.checkpoint = s.checkpoint ∧
      (s.wait_hint.nanos = 0 → s.wait_hint.secs * 1000 < 4294967296 →
        s'.wait_hint = s.wait_hint) := by
  obtain ⟨hT, hS, hC, hP, hW⟩ := ServiceStatus.to_raw_proj s
  refine ⟨{ service_type := s.service_type, current_state := s.current_state,
            controls_accepted :=
              ServiceControlAccept.from_bits_truncate (ServiceStatus.to_raw s).dwControlsAccepted,
            exit_code := ServiceExitCode.from_status (ServiceStatus.to_raw s),
            checkpoint := (ServiceStatus.to_raw s).dwCheckPoint,
            wait_hint := Duration.from_millis (ServiceStatus.to_raw s).dwWaitHint },
         ?_, ?_, ?_⟩
  · rw [ServiceStatus.from_raw, hT, hS, serviceType_decode_own_code,
        serviceState_decode_own_code]
  · exact hP
  · intro h0 hlt
    rcases hwh : s.wait_hint with ⟨secs, nanos⟩
    rw [hwh] at h0 hlt
    simp only at h0 hlt
    rw [hW, hwh]
    simp only [Duration.from_millis, Nat.mod_eq_of_lt hlt]
    have h1 : secs * 1000 / 1000 = secs := by omega
    have h2 : secs * 1000 % 1000 = 0 := by omega
    rw [h1, h2, h0]

/-- Witness for the amended C4 at a status with a 2-second wait hint. -/
theorem checkpoint_roundtrip_wait_hint_seconds_witness :
    ∃ s', ServiceStatus.from_raw (ServiceStatus.to_raw exStatus2s) = .ok s' ∧
      s'.checkpoint = exStatus2s.checkpoint ∧ s'.wait_hint = exStatus2s.wait_hint := by
  obtain ⟨s', h1, h2, h3⟩ := checkpoint_roundtrip_wait_hint_seconds exStatus2s
  exact ⟨s', h1, h2, h3 (by decide) (by decide)⟩

/-- C1 counterexample: with the sizing probe reporting the real platform
error 5 (access denied), not the more-data signal, and with service records
available, list_services returns Ok with the empty list instead of
propagating the error. -/
theorem list_services_probe_error_not_propagated :
    list_services envProbeErr = .ok [] ∧
    envProbeErr.probeLastError ≠ ERROR_MORE_DATA ∧
    envProbeErr.services ≠ [] :=
  ⟨rfl, by decide, by decide⟩

/-- C1 amended: list_services never propagates a probe failure; when the
probe's last error is not the more-data signal — real platform errors
included — it returns Ok with an empty list, and under the more-data signal
with zero records it likewise returns Ok with an empty list. -/
theorem list_services_non_more_data_ok_empty (env : EnumEnv) :
    (env.probeLastError ≠ ERROR_MORE_DATA → list_services env = .ok []) ∧
    (env.probeLastError = ERROR_MORE_DATA → env.services = [] →
      list_services env = .ok []) := by
  constructor
  · intro h
    simp [list_services, h]
  · intro h hs
    simp [list_services, h, hs, buildDetails]

/-- Witness for the amended C1 on both branches: a probe error environment
and an empty more-data environment. -/
theorem list_services_non_more_data_ok_empty_witness :
    list_services envProbeErr = .ok [] ∧ list_services envEmptyMoreData = .ok [] :=
  ⟨(list_services_non_more_data_ok_empty envProbeErr).1 (by decide),
   (list_services_non_more_data_ok_empty envEmptyMoreData).2 (by decide) (by decide)⟩

/-- A success of isOkB exhibits the ok value. -/
theorem isOkB_true {α : Type} {x : Except ErrorKind α} (h : isOkB x = true) :
    ∃ a, x = .ok a := by
  cases x with
  | ok a => exact ⟨a, rfl⟩
  | error e => simp [isOkB] at h

/-- Lemma: in any detail record the loop body produces, whenever the
error-control field is populated, tag_id holds that variant's raw code
(the source stores dwErrorControl in both). -/
theorem mkDetail_tag {e : ServiceEntry} {d : ServiceDetail} (h : mkDetail e = .ok d) :
    ∀ ec, d.error_control = some ec → d.tag_id = some ec.to_raw := by
  intro ec hec
  unfold mkDetail at h
  split at h
  · cases h1 : ServiceStatusExt.from_raw e.status.ServiceStatusProcess with
    | error err => rw [h1] at h; cases h
    | ok st =>
      rw [h1] at h
      cases h2 : ServiceStartType.from_raw e.config.dwStartType with
      | error err => rw [h2] at h; cases h
      | ok startT =>
        rw [h2] at h
        cases h3 : ServiceErrorControl.from_raw e.config.dwErrorControl with
        | error err => rw [h3] at h; cases h
        | ok errC =>
          rw [h3] at h
          cases h
          simp only at hec
          cases hec
          simp only []
          rw [ServiceErrorControl.to_raw_of_from_raw h3]
  · cases h1 : ServiceStatusExt.from_raw e.status.ServiceStatusProcess with
    | error err => rw [h1] at h; cases h
    | ok st =>
      rw [h1] at h
      cases h
      simp at hec

/-- Lemma: the tag/error-control relation lifted over the whole loop. -/
theorem buildDetails_tag {es : List ServiceEntry} {ds : List ServiceDetail}
    (h : buildDetails es = .ok ds) :
    ∀ d ∈ ds, ∀ ec, d.error_control = some ec → d.tag_id = some ec.to_raw := by
  induction es generalizing ds with
  | nil =>
    cases h
    intro d hd
    cases hd
  | cons e rest ih =>
    intro d hd ec hec
    unfold buildDetails at h
    cases h1 : mkDetail e with
    | error err => rw [h1] at h; cases h
    | ok d0 =>
      rw [h1] at h
      cases h2 : buildDetails rest with
      | error err => rw [h2] at h; cases h
      | ok ds' =>
        rw [h2] at h
        cases h
        rcases List.mem_cons.mp hd with rfl | hd'
        · exact mkDetail_tag h1 ec hec
        · exact ih h2 d hd' ec hec

/-- C10: in every detail record list_services returns, whenever the optional
error-control field is present, tag_id carries that same error-control wire
code (the source populates tag_id from dwErrorControl, not from dwTagId). -/
theorem tag_id_from_error_control (env : EnumEnv) (ds : List ServiceDetail)
    (h : list_services env = .ok ds) (d : ServiceDetail) (hd : d ∈ ds)
    (ec : ServiceErrorControl) (hec : d.error_control = some ec) :
    d.tag_id = some ec.to_raw := by
  unfold list_services at h
  split at h
  · exact buildDetails_tag h d hd ec hec
  · cases h
    cases hd

/-- Witness for C10 on the one-service environment: the populated record's
tag_id equals the raw code of its error-control field. -/
theorem tag_id_from_error_control_witness :
    detailA.tag_id = some ServiceErrorControl.Normal.to_raw :=
  tag_id_from_error_control envOneGood [detailA] rfl detailA
    (List.mem_singleton.mpr rfl) ServiceErrorControl.Normal rfl

/-- Lemma: a good entry produces a fully populated detail record without
aborting. -/
theorem mkDetail_good {e : ServiceEntry} (h : goodEntry e = true) :
    ∃ d, mkDetail e = .ok d ∧ fullyPopulated d = true := by
  unfold goodEntry at h
  simp only [Bool.and_eq_true, decide_eq_true_eq] at h
  obtain ⟨⟨⟨hpos, hst⟩, hstart⟩, herr⟩ := h
  obtain ⟨st, h1⟩ := isOkB_true hst
  obtain ⟨startT, h2⟩ := isOkB_true hstart
  obtain ⟨errC, h3⟩ := isOkB_true herr
  unfold mkDetail
  rw [if_pos hpos, h1, h2, h3]
  exact ⟨_, rfl, by simp [fullyPopulated]⟩

/-- Lemma: a bad entry produces a degraded detail record carrying the
diagnostic binary_path, without aborting. -/
theorem mkDetail_bad {e : ServiceEntry} (h : badEntry e = true) :
    ∃ d, mkDetail e = .ok d ∧ degraded d = true ∧
      d.binary_path = some ("Error when retrieving info for service " ++ e.lastErrorMsg) := by
  unfold badEntry at h
  simp only [Bool.and_eq_true, decide_eq_true_eq] at h
  obtain ⟨hzero, hst⟩ := h
  obtain ⟨st, h1⟩ := isOkB_true hst
  unfold mkDetail
  rw [if_neg (by omega), h1]
  exact ⟨_, rfl, by simp [degraded], rfl⟩

/-- Lemma: a list of good entries builds to a same-length list of fully
populated detail records. -/
theorem buildDetails_good {es : List ServiceEntry} (h : ∀ x ∈ es, goodEntry x = true) :
    ∃ ds, buildDetails es = .ok ds ∧ ds.length = es.length ∧
      ∀ d ∈ ds, fullyPopulated d = true := by
  induction es with
  | nil => exact ⟨[], rfl, rfl, by intro d hd; cases hd⟩
  | cons e rest ih =>
    obtain ⟨d, hd, hdf⟩ := mkDetail_good (h e (List.mem_cons_self e rest))
    obtain ⟨ds, hds, hlen, hfull⟩ := ih (fun x hx => h x (List.mem_cons_of_mem e hx))
    refine ⟨d :: ds, ?_, by simp [hlen], ?_⟩
    · unfold buildDetails
      rw [hd, hds]
    · intro x hx
      rcases List.mem_cons.mp hx with rfl | hx'
      · exact hdf
      · exact hfull x hx'

/-- Lemma: the loop distributes over list append when both halves succeed. -/
theorem buildDetails_append {es1 es2 : List ServiceEntry}
    {ds1 ds2 : List ServiceDetail}
    (h1 : buildDetails es1 = .ok ds1) (h2 : buildDetails es2 = .ok ds2) :
    buildDetails (es1 ++ es2) = .ok (ds1 ++ ds2) := by
  induction es1 generalizing ds1 with
  | nil =>
    cases h1
    simpa using h2
  | cons e rest ih =>
    unfold buildDetails at h1
    cases hm : mkDetail e with
    | error err => rw [hm] at h1; cases h1
    | ok d0 =>
      rw [hm] at h1
      cases hr : buildDetails rest with
      | error err => rw [hr] at h1; cases h1
      | ok ds' =>
        rw [hr] at h1
        cases h1
        have := ih hr
        show buildDetails (e :: (rest ++ es2)) = _
        unfold buildDetails
        rw [hm, this]
        simp

/-- C2: when enumeration proceeds (more-data probe) and exactly one of the N
services' secondary configuration query fails while every other entry fully
decodes, list_services still returns N records: the records flanking the
failed one are fully populated, the failed one is degraded with a diagnostic
binary_path, and nothing aborts. -/
theorem list_services_single_failure_degraded
    (es1 es2 : List ServiceEntry) (bad : ServiceEntry) (nb : Nat)
    (h1 : ∀ x ∈ es1, goodEntry x = true) (h2 : ∀ x ∈ es2, goodEntry x = true)
    (hb : badEntry bad = true) :
    ∃ ds1 d ds2,
      list_services { probeLastError := ERROR_MORE_DATA, probeBytesNeeded := nb,
                      services := es1 ++ bad :: es2 } = .ok (ds1 ++ d :: ds2) ∧
      ds1.length = es1.length ∧ ds2.length = es2.length ∧
      degraded d = true ∧
      d.binary_path = some ("Error when retrieving info for service " ++ bad.lastErrorMsg) ∧
      (∀ x ∈ ds1, fullyPopulated x = true) ∧ (∀ x ∈ ds2, fullyPopulated x = true) := by
  obtain ⟨ds1, hds1, hlen1, hfull1⟩ := buildDetails_good h1
  obtain ⟨ds2, hds2, hlen2, hfull2⟩ := buildDetails_good h2
  obtain ⟨d, hd, hdeg, hbin⟩ := mkDetail_bad hb
  refine ⟨ds1, d, ds2, ?_, hlen1, hlen2, hdeg, hbin, hfull1, hfull2⟩
  have hmid : buildDetails (bad :: es2) = .ok (d :: ds2) := by
    unfold buildDetails
    rw [hd, hds2]
  have hall := buildDetails_append hds1 hmid
  unfold list_services
  rw [if_pos rfl]
  exact hall

/-- Witness for C2 on three concrete services where the middle entry's
configuration probe fails. -/
theorem list_services_single_failure_degraded_witness :
    ∃ ds1 d ds2,
      list_services { probeLastError := ERROR_MORE_DATA, probeBytesNeeded := 100,
                      services := [goodEntryA] ++ badEntryA :: [goodEntryB] } =
        .ok (ds1 ++ d :: ds2) ∧
      ds1.length = [goodEntryA].length ∧ ds2.length = [goodEntryB].length ∧
      degraded d = true ∧
      d.binary_path =
        some ("Error when retrieving info for service " ++ badEntryA.lastErrorMsg) ∧
      (∀ x ∈ ds1, fullyPopulated x = true) ∧ (∀ x ∈ ds2, fullyPopulated x = true) :=
  list_services_single_failure_degraded [goodEntryA] [goodEntryB] badEntryA 100
    (by decide) (by decide) (by decide)

/-- Lemma: driving the iterator from index i with enough fuel yields one
(offset, record) pair per remaining index, each read at offset k * recSize
for some i ≤ k < size, and leaves the cursor at index = size. -/
theorem enumList_run_spec (recSize : Nat) :
    ∀ (fuel : Nat) (ep : Nat → ENUM_SERVICE_STATUS_PROCESSW) (i size : Nat),
      size - i ≤ fuel → i ≤ size →
      (EnumListServiceResult.run recSize fuel ⟨ep, i, size⟩).1.length = size - i ∧
      (∀ p ∈ (EnumListServiceResult.run recSize fuel ⟨ep, i, size⟩).1,
        ∃ k, i ≤ k ∧ k < size ∧ p.1 = k * recSize ∧ p.2 = ep (k * recSize)) ∧
      (EnumListServiceResult.run recSize fuel ⟨ep, i, size⟩).2 = ⟨ep, size, size⟩ := by
  intro fuel
  induction fuel with
  | zero =>
    intro ep i size hf hi
    have hi' : i = size := by omega
    subst hi'
    refine ⟨by simp [EnumListServiceResult.run], ?_, by simp [EnumListServiceResult.run]⟩
    intro p hp
    simp [EnumListServiceResult.run] at hp
  | succ fuel ih =>
    intro ep i size hf hi
    by_cases hlt : i < size
    · have hnext : EnumListServiceResult.next recSize ⟨ep, i, size⟩ =
          (some (i * recSize, ep (i * recSize)), ⟨ep, i + 1, size⟩) := by
        simp [EnumListServiceResult.next, hlt]
      obtain ⟨hlen, hmem, hfin⟩ := ih ep (i + 1) size (by omega) (by omega)
      have hrun : EnumListServiceResult.run recSize (fuel + 1) ⟨ep, i, size⟩ =
          ((i * recSize, ep (i * recSize)) ::
            (EnumListServiceResult.run recSize fuel ⟨ep, i + 1, size⟩).1,
           (EnumListServiceResult.run recSize fuel ⟨ep, i + 1, size⟩).2) := by
        rw [EnumListServiceResult.run, hnext]
      rw [hrun]
      refine ⟨by simp [hlen]; omega, ?_, hfin⟩
      intro p hp
      rcases List.mem_cons.mp hp with rfl | hp'
      · exact ⟨i, le_refl i, hlt, rfl, rfl⟩
      · obtain ⟨k, hk1, hk2, hk3, hk4⟩ := hmem p hp'
        exact ⟨k, by omega, hk2, hk3, hk4⟩
    · have hi' : i = size := by omega
      subst hi'
      have hnext : EnumListServiceResult.next recSize ⟨ep, i, i⟩ =
          (none, ⟨ep, i, i⟩) := by
        simp [EnumListServiceResult.next]
      have hrun : EnumListServiceResult.run recSize (fuel + 1) ⟨ep, i, i⟩ =
          ([], ⟨ep, i, i⟩) := by
        rw [EnumListServiceResult.run, hnext]
      rw [hrun]
      refine ⟨by simp, ?_, rfl⟩
      intro p hp
      cases hp

/-- C6: over any buffer and record count, driving the iterator built by
from_raw yields exactly records_returned records, every read happens at a
byte offset index * record_size with index < records_returned — hence
strictly below records_returned * record_size — and the following next call
yields none, regardless of how large the underlying allocation is. -/
theorem enum_iter_bounds (ep : Nat → ENUM_SERVICE_STATUS_PROCESSW)
    (size recSize : Nat) (h : 0 < recSize) :
    (EnumListServiceResult.run recSize size
        (EnumListServiceResult.from_raw ep size)).1.length = size ∧
    (∀ p ∈ (EnumListServiceResult.run recSize size
        (EnumListServiceResult.from_raw ep size)).1,
      p.1 < size * recSize ∧ ∃ i, i < size ∧ p.1 = i * recSize) ∧
    (EnumListServiceResult.next recSize
      (EnumListServiceResult.run recSize size
        (EnumListServiceResult.from_raw ep size)).2).1 = none := by
  obtain ⟨hlen, hmem, hfin⟩ :=
    enumList_run_spec recSize size ep 0 size (by omega) (by omega)
  have hfr : EnumListServiceResult.from_raw ep size = ⟨ep, 0, size⟩ := rfl
  rw [hfr]
  refine ⟨by simpa using hlen, ?_, ?_⟩
  · intro p hp
    obtain ⟨k, _, hk2, hk3, _⟩ := hmem p hp
    refine ⟨?_, k, hk2, hk3⟩
    rw [hk3]
    exact mul_lt_mul_of_pos_right hk2 h
  · rw [hfin]
    simp [EnumListServiceResult.next]

/-- Witness for C6 on a constant two-record buffer with record size 8. -/
theorem enum_iter_bounds_witness :
    (EnumListServiceResult.run 8 2 (EnumListServiceResult.from_raw enumBufConst 2)).1.length
      = 2 ∧
    (∀ p ∈ (EnumListServiceResult.run 8 2
        (EnumListServiceResult.from_raw enumBufConst 2)).1,
      p.1 < 2 * 8 ∧ ∃ i, i < 2 ∧ p.1 = i * 8) ∧
    (EnumListServiceResult.next 8
      (EnumListServiceResult.run 8 2 (EnumListServiceResult.from_raw enumBufConst 2)).2).1
      = none :=
  enum_iter_bounds enumBufConst 2 8 (by decide)

/-- Lemma: the left fold that pushes a space then a token equals the
space-join of the accumulator followed by the tokens. -/
theorem joinTokens_foldl (l : List String) :
    ∀ acc : String, l.foldl (fun buf a => buf ++ " " ++ a) acc = joinTokens (acc :: l) := by
  induction l with
  | nil => intro acc; rfl
  | cons a rest ih =>
    intro acc
    rw [List.foldl_cons, ih (acc ++ " " ++ a)]
    cases rest with
    | nil => rfl
    | cons b rest' =>
      show joinTokens ((acc ++ " " ++ a) :: b :: rest') = _
      simp [joinTokens, String.append_assoc]

/-- Lemma: when no escaped argument contains an interior NUL, escaping the
whole argument list succeeds and yields the pointwise escapes. -/
theorem mapM_escape_all_ok {esc : String → String} {args : List String}
    (h : ∀ a ∈ args, hasNul (esc a) = false) :
    args.mapM (escape_wide esc) = some (args.map esc) := by
  induction args with
  | nil => rfl
  | cons a rest ih =>
    have ha : hasNul (esc a) = false := h a (List.mem_cons_self a rest)
    have hrest := ih (fun x hx => h x (List.mem_cons_of_mem a hx))
    rw [List.mapM_cons, hrest]
    simp [escape_wide, ha]

/-- C7: the launch command is the space-join of the executable path and the
launch arguments with every token shell-escaped — except that for a
kernel-driver service type the executable path enters the command verbatim,
unescaped, whatever characters (spaces included) it contains. -/
theorem launch_command_escaping (esc : String → String) (path : String)
    (args : List String) (hargs : ∀ a ∈ args, hasNul (esc a) = false)
    (hpath : hasNul (esc path) = false) :
    launch_command esc .KernelDriver path args =
      some (joinTokens (path :: args.map esc)) ∧
    ∀ t, t ≠ ServiceType.KernelDriver →
      launch_command esc t path args =
        some (joinTokens (esc path :: args.map esc)) := by
  constructor
  · unfold launch_command
    rw [mapM_escape_all_ok hargs]
    simp only []
    rw [joinTokens_foldl]
  · intro t ht
    have hesc : escape_wide esc path = some (esc path) := by
      simp [escape_wide, hpath]
    cases t <;> first
      | exact absurd rfl ht
      | (unfold launch_command
         rw [hesc, mapM_escape_all_ok hargs]
         simp only []
         rw [joinTokens_foldl])

/-- Witness for C7: a path containing a space, one argument, the concrete
q-marker escape; the kernel-driver command keeps the path verbatim while the
own-process command escapes it. -/
theorem launch_command_escaping_witness :
    launch_command escQuote ServiceType.KernelDriver "C:\\a b.sys" ["x"] =
      some (joinTokens ("C:\\a b.sys" :: (["x"].map escQuote))) ∧
    launch_command escQuote ServiceType.OwnProcess "C:\\a b.sys" ["x"] =
      some (joinTokens (escQuote "C:\\a b.sys" :: (["x"].map escQuote))) :=
  ⟨(launch_command_escaping escQuote "C:\\a b.sys" ["x"] (by decide) (by decide)).1,
   (launch_command_escaping escQuote "C:\\a b.sys" ["x"] (by decide) (by decide)).2
     ServiceType.OwnProcess (by decide)⟩

end WinSvc
